import Mathlib

/-!
Verification of the session resource lifecycle manager of the data-chat
gateway (`data_chat_bot.py`).

The Python source is shallowly embedded: every externally observable
side effect (docker queries/removals, transport and control-session
bring-up, session-state writes) is either recorded in an explicit trace
of operations or threaded through an explicit session-state record, and
every fallible external step is an `Except`-valued field of an
environment record, so that each execution path of the source
corresponds to a choice of environment.
-/

namespace DataChat

/-! ## String primitives mirroring the Python string operations used by the source -/

/-- Python `str.strip()`: drop whitespace from both ends. -/
def pyStrip (s : String) : String :=
  String.mk (((s.data.dropWhile Char.isWhitespace).reverse.dropWhile Char.isWhitespace).reverse)

/-- Python `str.lower()` (ASCII, as used by the source on ASCII error text). -/
def lowerStr (s : String) : String :=
  String.mk (s.data.map Char.toLower)

/-- Contiguous-occurrence test on character lists. -/
def listInfix (needle : List Char) : List Char → Bool
  | [] => needle.isEmpty
  | x :: xs => needle.isPrefixOf (x :: xs) || listInfix needle xs

/-- Python `needle in haystack` substring test. -/
def strContains (haystack needle : String) : Bool :=
  listInfix needle.data haystack.data

/-- Python `str.startswith`. -/
def strStartsWith (s pat : String) : Bool :=
  pat.data.isPrefixOf s.data

/-- Concatenation of a list of strings (Python `+=` accumulation in a loop). -/
def strJoin : List String → String
  | [] => ""
  | x :: xs => x ++ strJoin xs

/-- First split of a character list at a separator character, when present. -/
def splitFirst (c : Char) : List Char → Option (List Char × List Char)
  | [] => none
  | x :: xs =>
    if x = c then some ([], xs)
    else
      match splitFirst c xs with
      | none => none
      | some p => some (x :: p.1, p.2)

/-- Python `s.split(sep, 2)` for a one-character separator: at most three parts. -/
def splitMax2 (c : Char) (s : String) : List String :=
  match splitFirst c s.data with
  | none => [s]
  | some p =>
    match splitFirst c p.2 with
    | none => [String.mk p.1, String.mk p.2]
    | some q => [String.mk p.1, String.mk q.1, String.mk q.2]

/-- Python `s.split(sep)` for a one-character separator (no limit). -/
def splitCharAux (c : Char) (acc : List Char) : List Char → List (List Char)
  | [] => [acc.reverse]
  | x :: xs =>
    if x = c then acc.reverse :: splitCharAux c [] xs
    else splitCharAux c (x :: acc) xs

/-- Python `s.split(sep)` on a whole string. -/
def pySplitChar (c : Char) (s : String) : List String :=
  (splitCharAux c [] s.data).map String.mk

/-! ## Schema introspection (`get_database_schema`, src/data_chat_bot.py lines 33-114)

The Firebolt connection, the table-list query, the per-table column query and
the connection close are the fallible external calls of the function; each is
an `Except`-valued field of `SchemaEnv`.  A `.error e` value plays the role of
the Python exception `e` raised by that call. -/

structure SchemaEnv where
  connectRes : Except String Unit
  tablesQuery : Except String (List String)
  columnsQuery : String → Except String (List (String × String × String))
  closeRes : Except String Unit

/-- Line 81: `all(c.isalnum() or c == '_' for c in table_name)` (ASCII reading). -/
def isSafeTableName (t : String) : Bool :=
  t.data.all (fun c => c.isAlphanum || c = '_')

/-- Lines 77-106: the body of the per-table loop; the text it appends to
`schema_info` for one table.  A name failing validation is skipped
(`continue`), a failing
column query appends the "(columns not available)" note, an empty column list
appends nothing. -/
def tableBlock (env : SchemaEnv) (t : String) : String :=
  if !isSafeTableName t then ""
  else
    match env.columnsQuery t with
    | .error _ => "Table: " ++ t ++ " (columns not available)\n\n"
    | .ok cols =>
      if cols.isEmpty then ""
      else
        "Table: " ++ t ++ "\n" ++ "  Columns:\n" ++
          strJoin (cols.map (fun c =>
            "    - " ++ c.1 ++ " (" ++ c.2.1 ++ ", " ++
              (if c.2.2 = "YES" then "NULL" else "NOT NULL") ++ ")\n")) ++ "\n"

/-- Lines 33-114.  The outer `try`/`except` catches every exception of the
connection, the table query and the close, and turns it into the
"Could not retrieve database schema:" string; the empty-table-list case
returns early (before the close); per-table column failures are handled
inside `tableBlock`.  The function is total by construction: its result type
is `String`, never an exception. -/
def get_database_schema (env : SchemaEnv) (database_name : String) : String :=
  match env.connectRes with
  | .error e => "Could not retrieve database schema: " ++ e
  | .ok _ =>
    match env.tablesQuery with
    | .error e => "Could not retrieve database schema: " ++ e
    | .ok tables =>
      if tables.isEmpty then "No user tables found in the database."
      else
        let schema_info :=
          "Available tables in the " ++ database_name ++ " database:\n\n" ++
            strJoin (tables.map (tableBlock env))
        match env.closeRes with
        | .error e => "Could not retrieve database schema: " ++ e
        | .ok _ => schema_info

/-! ## Error classifier (`on_message` except-branch, src/data_chat_bot.py lines 657-755)

The chain of `elif` substring tests over `error_str`, written as the ordered
rule list it implements.  The result type makes the function total: every raw
error string receives exactly one `ErrorKind`, with `unclassified` carrying
the raw text (line 754 shows the raw `error_str` in the fallback message). -/

inductive ErrorKind where
  | credentialExpired
  | marketplaceAccessDenied
  | authDomainMismatch
  | relationNotFound
  | unclassified (raw : String)
  deriving DecidableEq

/-- Line 664: `("ExpiredTokenException" in s or "expired" in s.lower()) and "token" in s.lower()`. -/
def matchesCredExpired (s : String) : Bool :=
  (strContains s "ExpiredTokenException" || strContains (lowerStr s) "expired") &&
    strContains (lowerStr s) "token"

/-- Line 690: `"AccessDeniedException" in s and "aws-marketplace" in s.lower()`. -/
def matchesMarketplace (s : String) : Bool :=
  strContains s "AccessDeniedException" && strContains (lowerStr s) "aws-marketplace"

/-- Line 709: `"Invalid domain" in s and "firebolt" in s.lower()`. -/
def matchesAuthDomain (s : String) : Bool :=
  strContains s "Invalid domain" && strContains (lowerStr s) "firebolt"

/-- Line 729: `"relation" in s.lower() and "does not exist" in s.lower()`. -/
def matchesRelation (s : String) : Bool :=
  strContains (lowerStr s) "relation" && strContains (lowerStr s) "does not exist"

/-- Lines 664-754: the `if`/`elif` chain, most specific first, generic fallback last. -/
def classify_error (s : String) : ErrorKind :=
  if matchesCredExpired s then .credentialExpired
  else if matchesMarketplace s then .marketplaceAccessDenied
  else if matchesAuthDomain s then .authDomainMismatch
  else if matchesRelation s then .relationNotFound
  else .unclassified s

/-! ## Streaming response pipeline (src/data_chat_bot.py lines 563-645)

One event of `agent.astream(..., stream_mode='messages')`, as the `on_message`
loop distinguishes them: the three internal tool event types (skipped at line
616), an `AIMessageChunk` with string content, an `AIMessageChunk` whose
content is a list headed by a text dict (lines 628-638), and a plain message
with string content (lines 641-645). -/

inductive StreamEvent where
  | toolMessage (content : String)
  | toolCall (content : String)
  | toolCallChunk (content : String)
  | aiChunkStr (content : String)
  | aiChunkTextList (text : String)
  | aiMessageStr (content : String)
  deriving DecidableEq

/-- Line 572: the `exclude_patterns` list of `should_include_content`. -/
def exclude_patterns : List String :=
  ["[called ", "[tool output:", "[tool:", "[function:",
   "executing tool", "calling tool", "tool_result", "tool_use"]

/-- Lines 564-593: `should_include_content`.  Empty content is rejected
(line 566); a fragment whose stripped, lower-cased form starts with an
exclude pattern, or contains `'['` + pattern, is rejected (lines 585-587);
short fragments mentioning a tool keyword are rejected (line 590). -/
def should_include_content (content_str : String) : Bool :=
  if content_str = "" then false
  else
    let content_lower := lowerStr (pyStrip content_str)
    if exclude_patterns.any (fun p =>
        strStartsWith content_lower p || strContains content_lower ("[" ++ p)) then
      false
    else if (pyStrip content_str).length < 10 &&
        (["tool", "function", "mcp"].any (fun w => strContains content_lower w)) then
      false
    else
      true

/-- Lines 615-645: the effect of one streamed event on the accumulated
user-visible text `response_content` (each accepted fragment is also streamed
to the UI in the same order it is appended). -/
def stepEvent (acc : String) (e : StreamEvent) : String :=
  match e with
  | .toolMessage _ => acc
  | .toolCall _ => acc
  | .toolCallChunk _ => acc
  | .aiChunkStr c => if c = "" then acc else if should_include_content c then acc ++ c else acc
  | .aiChunkTextList t => if should_include_content t then acc ++ t else acc
  | .aiMessageStr c => if c = "" then acc else if should_include_content c then acc ++ c else acc

/-- The accumulated user-visible output after the whole event stream. -/
def visibleOutput (events : List StreamEvent) : String :=
  events.foldl stepEvent ""

/-! ## Message-handling retry (`on_message`, src/data_chat_bot.py lines 511-534) -/

/-- Line 517: `"Connection closed" in error_msg or "closed" in error_msg.lower()`. -/
def isClosedError (s : String) : Bool :=
  strContains s "Connection closed" || strContains (lowerStr s) "closed"

/-- Outcomes of the two possible `get_or_create_agent()` calls made by
`on_message`; each is either an agent (modelled as `Unit`) or the raised
exception's text. -/
structure RetryEnv where
  call1 : Except String Unit
  call2 : Except String Unit

/-- Observable operations of the acquisition phase of `on_message`. -/
inductive MsgOp where
  | callGetOrCreate
  | invalidateSession
  | sendErrorMessage (content : String)
  deriving DecidableEq

/-- Lines 511-534: acquire the agent, with the one-shot retry after clearing
the cached agent/connection entries (lines 519-522) when the failure text
looks like a closed connection; any other failure is surfaced at once. -/
def acquire_agent (env : RetryEnv) : Option Unit × List MsgOp :=
  match env.call1 with
  | .ok a => (some a, [.callGetOrCreate])
  | .error e =>
    if isClosedError e then
      match env.call2 with
      | .ok a => (some a, [.callGetOrCreate, .invalidateSession, .callGetOrCreate])
      | .error e2 =>
        (none, [.callGetOrCreate, .invalidateSession, .callGetOrCreate,
                .sendErrorMessage
                  ("Error: Connection failed. " ++ e2 ++ "\n\nPlease try refreshing the page.")])
    else
      (none, [.callGetOrCreate,
              .sendErrorMessage ("Error: Failed to initialize connection. " ++ e)])

/-! ## Observable operations of the lifecycle code

Each constructor marks one externally visible action of
`get_or_create_agent` / `cleanup_old_containers`: a docker liveness query, a
forced removal, a session-state write, or one step of connection bring-up /
teardown. -/

inductive Op where
  | dockerPs (filterName : String)
  | dockerRm (name : String)
  | setContainerName (name : String)
  | stdioOpen
  | sessionEnter
  | sessionInitAttempt
  | sessionExit
  | stdioExit
  | setAgent
  | setFlag (b : Bool)
  deriving DecidableEq

/-! ## Background janitor (`cleanup_old_containers`, src/data_chat_bot.py lines 117-163) -/

/-- External world of the sweep: the `docker ps -a` scan either yields raw
stdout text or raises (`.error ()`), and each individual `docker rm -f` either
works or fails — the sweep consults the outcome and discards it
(the per-removal `try`/`except: pass` at lines 149-158). -/
structure CleanupEnv where
  scan : Except Unit String
  removeOk : String → Bool

/-- Lines 135-158: the body of the sweep loop for one stdout line.  Blank and
malformed lines are skipped; `parts = line.split(' ', 2)` gives the container
name and the first word of its status; a status word containing "Exited" or
"Dead" triggers a forced removal whose outcome is consulted and swallowed
(`try`/`except: pass`). -/
def cleanupStep (env : CleanupEnv) (acc : List Op) (line : String) : List Op :=
  if pyStrip line = "" then acc
  else
    let parts := splitMax2 ' ' line
    if parts.length < 3 then acc
    else
      let name := parts.headD ""
      let status := (parts.drop 1).headD ""
      if strContains status "Exited" || strContains status "Dead" then
        let _ := env.removeOk name
        acc ++ [Op.dockerRm name]
      else acc

/-- Lines 117-163.  Split the stripped `docker ps -a` stdout into lines and
sweep them; a scan failure (or empty output) yields no removals and returns
normally (outer `except` at line 162). -/
def cleanup_old_containers (env : CleanupEnv) : List Op :=
  match env.scan with
  | .error _ => []
  | .ok out =>
    let trimmed := pyStrip out
    if trimmed = "" then []
    else (pySplitChar '\n' trimmed).foldl (cleanupStep env) []

/-- One `docker ps -a` output line, structured: container name, first word of
the status column, and the rest of the line (status tail and created-at). -/
structure ContainerLine where
  name : String
  status : String
  created : String
  deriving DecidableEq

/-- The raw text of a `ContainerLine` as docker prints it. -/
def renderLine (h : ContainerLine) : String :=
  h.name ++ " " ++ h.status ++ " " ++ h.created

/-- Well-formedness of one printed line: the name and the status word hold no
space (docker names and status words never do) and the line carries no
surrounding whitespace. -/
def goodLine (h : ContainerLine) : Prop :=
  (' ' ∉ h.name.data) ∧ (' ' ∉ h.status.data) ∧ pyStrip (renderLine h) = renderLine h

instance goodLineDecidable (h : ContainerLine) : Decidable (goodLine h) :=
  inferInstanceAs (Decidable ((' ' ∉ h.name.data) ∧ (' ' ∉ h.status.data) ∧
    pyStrip (renderLine h) = renderLine h))

/-- A handle the sweep must remove: its status word mentions Exited or Dead. -/
def deadStatus (h : ContainerLine) : Bool :=
  strContains h.status "Exited" || strContains h.status "Dead"

/-! ## Session resource manager (`get_or_create_agent`, src/data_chat_bot.py lines 166-475) -/

/-- The constructed agent object, opaque to the lifecycle logic. -/
abbrev Agent := Nat

/-- Per-session state touched by the manager (`cl.user_session` keys). -/
structure SessionState where
  agent : Option Agent
  initializing : Bool
  mcp_container_name : Option String
  stdio_ctx : Bool
  session_ctx : Bool
  mcp_session : Bool
  toolCount : Nat
  deriving DecidableEq

/-- Outcome of the bounded poll loop at lines 177-194. -/
inductive PollResult where
  | found (a : Agent)
  | timeout
  | fallThrough
  deriving DecidableEq

/-- Errors `get_or_create_agent` can raise: the poll-loop `TimeoutError` of
line 194, or a construction exception carrying its text. -/
inductive GocError where
  | initTimeout
  | exn (msg : String)
  deriving DecidableEq

/-- External world of one `get_or_create_agent` run.  `pollObs w` is the pair
(agent, initializing-flag) this task reads from the session at the w-th poll
iteration while another task initializes; the `Except` fields are the outcomes
of the fallible construction steps; `rmOk`/`undoOk` are outcomes of forced
removals and of the undo steps, which the source consults and swallows. -/
structure Env where
  pollObs : Nat → Option Agent × Bool
  sessionIdShort : String
  modelBuild : Except String Unit
  psExisting : Except Unit String
  psRace : Except Unit String
  rmOk : String → Bool
  nowMillis : Nat
  stdioOpen : Except String Unit
  sessionEnter : Except String Unit
  sessionInit : Except String Unit
  undoOk : Bool
  loadTools : Except String Nat
  vectorStoreBuild : Except String Unit
  schemaEnv : SchemaEnv
  agentBuild : Except String Agent

/-- Lines 179-194: the waiting loop.  `fuel` is the number of remaining
iterations (30 at entry, one per second of `max_wait_time`), `waited` the
seconds waited so far.  On loop exit, `waited >= max_wait_time` raises the
timeout; a break with `waited < max_wait_time` falls through to construction. -/
def pollAux (obs : Nat → Option Agent × Bool) : Nat → Nat → PollResult
  | 0, waited => if 30 ≤ waited then .timeout else .fallThrough
  | fuel + 1, waited =>
    let w := waited + 1
    match (obs w).1 with
    | some a => .found a
    | none =>
      if (obs w).2 then pollAux obs fuel w
      else if 30 ≤ w then .timeout else .fallThrough

/-- The poll loop as entered at line 182: 30 iterations, nothing waited yet. -/
def pollLoop (obs : Nat → Option Agent × Bool) : PollResult :=
  pollAux obs 30 0

/-- Lines 225-248: the recorded-container reuse check.  When the session
recorded a handle name, query its liveness: running means reuse the recorded
name; present-but-not-running means force-remove it and fall back to the base
name; a query failure is logged and falls back to the base name. -/
def resolveExisting (env : Env) (recorded : Option String) (base : String) :
    String × List Op :=
  match recorded with
  | none => (base, [])
  | some ex =>
    match env.psExisting with
    | .error _ => (base, [Op.dockerPs ex])
    | .ok out =>
      if strContains out ex then (ex, [Op.dockerPs ex])
      else
        let _ := env.rmOk ex
        (base, [Op.dockerPs ex, Op.dockerRm ex])

/-- Lines 260-275: the post-cleanup race re-check.  If a container is still
running under the chosen name (a concurrent provisioner won a race), append
`-` and the current milliseconds to disambiguate; a query failure is swallowed
and keeps the name. -/
def raceCheck (env : Env) (name : String) : String × List Op :=
  match env.psRace with
  | .error _ => (name, [Op.dockerPs name])
  | .ok out =>
    if strContains out name then
      (name ++ "-" ++ Nat.repr env.nowMillis, [Op.dockerPs name])
    else (name, [Op.dockerPs name])

deriving instance DecidableEq for Except

/-- Result of the construction body: the returned agent or the propagating
exception text, the session state as left behind, and the operation trace. -/
structure BuildOut where
  res : Except String Agent
  st : SessionState
  ops : List Op
  deriving DecidableEq

/-- Lines 199-472: the `try`-body of the construction sequence.

* model client build (line 213) — fallible;
* container naming: reuse check (225-248), unconditional
  `docker rm -f container_name` (250-258), race re-check (260-275);
* record the name in the session (line 316);
* transport open (325), control-session enter (329) — each fallible, with no
  undo of their own on failure;
* `session.initialize()` (331-356) — on failure, exit the control session,
  exit the transport, force-remove the recorded container (failures of these
  undo steps are consulted and swallowed), then re-raise;
* tool loading (359) — fallible, no undo on failure;
* vector-store build (361-407) — failure swallowed, tool count unchanged;
* schema introspection (427) — the total `get_database_schema`;
* agent build (458) — fallible, no undo on failure;
* session-state writes and return (461-472). -/
def construct (env : Env) (s : SessionState) : BuildOut :=
  match env.modelBuild with
  | .error e => ⟨.error e, s, []⟩
  | .ok _ =>
    let base := "firebolt-mcp-" ++ env.sessionIdShort
    let r1 := resolveExisting env s.mcp_container_name base
    let _ := env.rmOk r1.1
    let ops2 := r1.2 ++ [Op.dockerRm r1.1]
    let r2 := raceCheck env r1.1
    let ops3 := ops2 ++ r2.2
    let s1 := { s with mcp_container_name := some r2.1 }
    let ops4 := ops3 ++ [Op.setContainerName r2.1]
    match env.stdioOpen with
    | .error e => ⟨.error e, s1, ops4⟩
    | .ok _ =>
      let ops5 := ops4 ++ [Op.stdioOpen]
      match env.sessionEnter with
      | .error e => ⟨.error e, s1, ops5⟩
      | .ok _ =>
        let ops6 := ops5 ++ [Op.sessionEnter]
        match env.sessionInit with
        | .error e =>
          let _ := env.undoOk
          let undo := [Op.sessionExit, Op.stdioExit] ++
            (match s1.mcp_container_name with
             | some n => [Op.dockerRm n]
             | none => [])
          ⟨.error e, s1, ops6 ++ [Op.sessionInitAttempt] ++ undo⟩
        | .ok _ =>
          let ops7 := ops6 ++ [Op.sessionInitAttempt]
          match env.loadTools with
          | .error e => ⟨.error e, s1, ops7⟩
          | .ok ntools =>
            let total := match env.vectorStoreBuild with
                         | .ok _ => ntools + 1
                         | .error _ => ntools
            let _schema := get_database_schema env.schemaEnv "data_chat_demo"
            match env.agentBuild with
            | .error e => ⟨.error e, s1, ops7⟩
            | .ok a =>
              ⟨.ok a,
               { s1 with agent := some a, stdio_ctx := true, session_ctx := true,
                         mcp_session := true, toolCount := total },
               ops7 ++ [Op.setAgent]⟩

/-- Result of a whole `get_or_create_agent` call. -/
structure RunOut where
  res : Except GocError Agent
  state : SessionState
  trace : List Op
  deriving DecidableEq

/-- Lift a construction exception into the caller-visible error type. -/
def liftErr : Except String Agent → Except GocError Agent
  | .ok a => .ok a
  | .error e => .error (.exn e)

/-- Lines 196-475: set the single-flight flag, run the construction body, and
clear the flag in the `finally` on every exit path. -/
def runConstruct (env : Env) (s : SessionState) : RunOut :=
  let t := construct env { s with initializing := true }
  ⟨liftErr t.res, { t.st with initializing := false },
   Op.setFlag true :: t.ops ++ [Op.setFlag false]⟩

/-- Lines 166-475: `get_or_create_agent`.  Fast path when the agent exists;
bounded poll when another initialization is in flight (returning the agent it
produced, raising `initTimeout`, or falling through to construct when the
flag cleared without an agent); otherwise single-flighted construction. -/
def get_or_create_agent (env : Env) (s : SessionState) : RunOut :=
  match s.agent with
  | some a => ⟨.ok a, s, []⟩
  | none =>
    if s.initializing then
      match pollLoop env.pollObs with
      | .found a => ⟨.ok a, s, []⟩
      | .timeout => ⟨.error .initTimeout, s, []⟩
      | .fallThrough => runConstruct env s
    else runConstruct env s

/-! ## Concrete fixtures used to evaluate the embedding on closed inputs -/

/-- A fresh session: no agent, flag clear, nothing recorded. -/
def sFresh : SessionState := ⟨none, false, none, false, false, false, 0⟩

/-- A session observed while another task holds the single-flight flag. -/
def sWaiting : SessionState := ⟨none, true, none, false, false, false, 0⟩

/-- A session that recorded a container name from an earlier construction. -/
def sReuse : SessionState :=
  ⟨none, false, some "firebolt-mcp-abcdef123456", false, false, false, 0⟩

/-- An environment in which every external step succeeds and no docker query
reports a conflicting container. -/
def envOk : Env where
  pollObs := fun _ => (none, false)
  sessionIdShort := "abc123"
  modelBuild := .ok ()
  psExisting := .ok ""
  psRace := .ok ""
  rmOk := fun _ => true
  nowMillis := 1700000000000
  stdioOpen := .ok ()
  sessionEnter := .ok ()
  sessionInit := .ok ()
  undoOk := true
  loadTools := .ok 5
  vectorStoreBuild := .ok ()
  schemaEnv := ⟨.ok (), .ok ["t1"], fun _ => .ok [("c", "INT", "NO")], .ok ()⟩
  agentBuild := .ok 42

/-- The recorded container of `sReuse` is reported running by `docker ps`. -/
def envReuse : Env :=
  { envOk with sessionIdShort := "abcdef123456",
               psExisting := .ok "firebolt-mcp-abcdef123456" }

/-- Construction in which tool loading throws after transport and control
session are up. -/
def envToolsFail : Env := { envOk with loadTools := .error "tool loading failed" }

/-- Construction in which the control-session handshake throws. -/
def envHsFail : Env := { envOk with sessionInit := .error "handshake failed" }

/-- The race re-check reports the base name already running. -/
def envRaceHit : Env := { envOk with psRace := .ok "firebolt-mcp-abc123" }

/-- Poll observations: the other initializer publishes agent 7 at the third
check. -/
def obsFound : Nat → Option Agent × Bool :=
  fun i => if i = 3 then (some 7, true) else (none, true)

/-- Poll observations: the flag clears without an agent at the fifth check. -/
def obsFall : Nat → Option Agent × Bool :=
  fun i => if i = 5 then (none, false) else (none, true)

/-- Poll observations: the other initializer never finishes. -/
def obsStuck : Nat → Option Agent × Bool := fun _ => (none, true)

/-- Poll observations: the flag clears without an agent exactly at the 30th
(final) check. -/
def obsLateClear : Nat → Option Agent × Bool :=
  fun i => if i < 30 then (none, true) else (none, false)

/-- Environment whose poll observations are `obsFound`. -/
def envFound : Env := { envOk with pollObs := obsFound }

/-- Environment whose poll observations are `obsFall`. -/
def envFall : Env := { envOk with pollObs := obsFall }

/-- Environment whose poll observations are `obsStuck`. -/
def envStuck : Env := { envOk with pollObs := obsStuck }

/-- Structured janitor-sweep fixture: one running, one exited, one dead
container. -/
def hsSweep : List ContainerLine :=
  [⟨"firebolt-mcp-aaa", "Up", "2 hours 2024-01-01"⟩,
   ⟨"firebolt-mcp-bbb", "Exited", "(0) 3 hours ago 2024-01-01"⟩,
   ⟨"firebolt-mcp-ccc", "Dead", "2024-01-01"⟩]

/-- The raw stdout docker would print for `hsSweep`. -/
def sweepOut : String :=
  "firebolt-mcp-aaa Up 2 hours 2024-01-01\n" ++
    "firebolt-mcp-bbb Exited (0) 3 hours ago 2024-01-01\n" ++
    "firebolt-mcp-ccc Dead 2024-01-01"

/-- Janitor environment: the scan yields `sweepOut` and every removal fails. -/
def envSweep : CleanupEnv := ⟨.ok sweepOut, fun _ => false⟩

/-! ## Helper lemmas on the string primitives -/

theorem strAppendEmpty (s : String) : s ++ "" = s := by
  cases s with
  | mk data => show String.mk (data ++ []) = String.mk data
               rw [List.append_nil]

theorem strJoin_singleton (s : String) : strJoin [s] = s := by
  show s ++ strJoin [] = s
  exact strAppendEmpty s

theorem splitFirst_append {c : Char} {a : List Char} (b : List Char)
    (h : c ∉ a) : splitFirst c (a ++ c :: b) = some (a, b) := by
  induction a with
  | nil => simp [splitFirst]
  | cons x xs ih =>
    have hx : x ≠ c := fun hxc => h (hxc ▸ List.mem_cons_self x xs)
    have hxs : c ∉ xs := fun hm => h (List.mem_cons_of_mem x hm)
    simp [splitFirst, hx, ih hxs]

/-! ## C7: error classifier -/

/-- C7: the error classifier is total over raw error strings (it is a plain
function into `ErrorKind`, so every input receives exactly one
classification) and ordered by specificity: a string containing
"ExpiredTokenException" and (case-insensitively) "token" classifies as
`credentialExpired` — this is the first rule, so it needs no side
conditions; a string containing "relation" and "does not exist" that matches
no more specific rule classifies as `relationNotFound`; a string matching no
specific rule falls back to `unclassified` carrying the raw text. -/
theorem c7_classifier_ordered_total (s : String) :
    (strContains s "ExpiredTokenException" = true →
      strContains (lowerStr s) "token" = true →
      classify_error s = .credentialExpired) ∧
    (matchesCredExpired s = false → matchesMarketplace s = false →
      matchesAuthDomain s = false →
      strContains (lowerStr s) "relation" = true →
      strContains (lowerStr s) "does not exist" = true →
      classify_error s = .relationNotFound) ∧
    (matchesCredExpired s = false → matchesMarketplace s = false →
      matchesAuthDomain s = false → matchesRelation s = false →
      classify_error s = .unclassified s) := by
  refine ⟨?_, ?_, ?_⟩
  · intro h1 h2
    have hm : matchesCredExpired s = true := by
      simp [matchesCredExpired, h1, h2]
    simp [classify_error, hm]
  · intro h1 h2 h3 h4 h5
    have hm : matchesRelation s = true := by
      simp [matchesRelation, h4, h5]
    simp [classify_error, h1, h2, h3, hm]
  · intro h1 h2 h3 h4
    simp [classify_error, h1, h2, h3, h4]

/-- Witness for C7 at concrete error strings from the source's remediation
branches. -/
theorem c7_classifier_witness :
    classify_error "ExpiredTokenException: the security token is invalid" =
      .credentialExpired ∧
    classify_error "relation pdf_semantic_index does not exist" =
      .relationNotFound ∧
    classify_error "some mystery failure" = .unclassified "some mystery failure" :=
  ⟨(c7_classifier_ordered_total _).1 (by decide) (by decide),
   (c7_classifier_ordered_total _).2.1 (by decide) (by decide) (by decide)
     (by decide) (by decide),
   (c7_classifier_ordered_total _).2.2 (by decide) (by decide) (by decide)
     (by decide)⟩

/-! ## C10: totality of schema introspection -/

/-- C10: `get_database_schema` is total — its result type is `String`, and on
every failure of the connection or of the table query it returns the
"Could not retrieve database schema:" string instead of propagating; an
empty table list returns the "No user tables found" string; a per-table
column-query failure turns into the "(columns not available)" note for that
table; a table whose name fails the character validation is skipped
entirely.  Because the function never raises, agent construction is never
aborted by schema introspection. -/
theorem c10_schema_introspection_total :
    (∀ env db e, env.connectRes = .error e →
       get_database_schema env db = "Could not retrieve database schema: " ++ e) ∧
    (∀ env db e, env.connectRes = .ok () → env.tablesQuery = .error e →
       get_database_schema env db = "Could not retrieve database schema: " ++ e) ∧
    (∀ env db, env.connectRes = .ok () → env.tablesQuery = .ok [] →
       get_database_schema env db = "No user tables found in the database.") ∧
    (∀ env db t e, env.connectRes = .ok () → env.tablesQuery = .ok [t] →
       isSafeTableName t = true → env.columnsQuery t = .error e →
       env.closeRes = .ok () →
       get_database_schema env db =
         "Available tables in the " ++ db ++ " database:\n\n" ++
           ("Table: " ++ t ++ " (columns not available)\n\n")) ∧
    (∀ env db t, env.connectRes = .ok () → env.tablesQuery = .ok [t] →
       isSafeTableName t = false → env.closeRes = .ok () →
       get_database_schema env db =
         "Available tables in the " ++ db ++ " database:\n\n") := by
  refine ⟨?_, ?_, ?_, ?_, ?_⟩
  · intro env db e h1
    simp [get_database_schema, h1]
  · intro env db e h1 h2
    simp [get_database_schema, h1, h2]
  · intro env db h1 h2
    simp [get_database_schema, h1, h2]
  · intro env db t e h1 h2 h3 h4 h5
    simp [get_database_schema, h1, h2, h5, tableBlock, h3, h4, strJoin_singleton]
  · intro env db t h1 h2 h3 h4
    simp [get_database_schema, h1, h2, h4, tableBlock, h3, strJoin_singleton,
      strAppendEmpty]

/-- Witness for C10: the connection-failure fallback and the per-table note,
at concrete environments. -/
theorem c10_schema_witness :
    get_database_schema ⟨.error "boom", .ok [], fun _ => .ok [], .ok ()⟩
        "data_chat_demo" = "Could not retrieve database schema: boom" ∧
    get_database_schema ⟨.ok (), .ok ["orders"], fun _ => .error "colfail", .ok ()⟩
        "data_chat_demo" =
      "Available tables in the data_chat_demo database:\n\n" ++
        ("Table: orders (columns not available)\n\n") :=
  ⟨c10_schema_introspection_total.1 _ "data_chat_demo" "boom" rfl,
   c10_schema_introspection_total.2.2.2.1 _ "data_chat_demo" "orders" "colfail"
     rfl rfl (by decide) rfl rfl⟩

/-! ## C8: one-shot retry on transport-broken errors -/

/-- C8: when `get_or_create_agent` fails during message handling and the
failure text looks like a closed connection, the handler invalidates the
session's cached agent/connection entries and retries exactly once — the
trace holds exactly two `get_or_create` calls; a failure of that one retry is
surfaced to the user with no further call; any other failure kind is surfaced
at once with a single call and no invalidation. -/
theorem c8_transport_retry_once (env : RetryEnv) (e : String)
    (h1 : env.call1 = .error e) :
    (isClosedError e = true →
      (acquire_agent env).2.count .callGetOrCreate = 2 ∧
      MsgOp.invalidateSession ∈ (acquire_agent env).2 ∧
      (∀ e2, env.call2 = .error e2 →
        acquire_agent env =
          (none, [.callGetOrCreate, .invalidateSession, .callGetOrCreate,
                  .sendErrorMessage ("Error: Connection failed. " ++ e2 ++
                    "\n\nPlease try refreshing the page.")]))) ∧
    (isClosedError e = false →
      acquire_agent env =
        (none, [.callGetOrCreate,
                .sendErrorMessage ("Error: Failed to initialize connection. " ++ e)])) := by
  constructor
  · intro hc
    cases hc2 : env.call2 with
    | ok a =>
      refine ⟨?_, ?_, ?_⟩
      · simp [acquire_agent, h1, hc, hc2, List.count_cons]
      · simp [acquire_agent, h1, hc, hc2]
      · intro e2 h
        simp at h
    | error e2' =>
      refine ⟨?_, ?_, ?_⟩
      · simp [acquire_agent, h1, hc, hc2, List.count_cons]
      · simp [acquire_agent, h1, hc, hc2]
      · intro e2 h
        injection h with h
        subst h
        simp [acquire_agent, h1, hc, hc2]
  · intro hc
    simp [acquire_agent, h1, hc]

/-- Witness for C8: both calls fail with closed-connection text; the handler
makes exactly two calls, invalidates in between, and surfaces the second
failure. -/
theorem c8_transport_retry_witness :
    acquire_agent ⟨.error "Connection closed by server", .error "Connection closed again"⟩ =
      (none, [.callGetOrCreate, .invalidateSession, .callGetOrCreate,
              .sendErrorMessage ("Error: Connection failed. " ++ "Connection closed again" ++
                "\n\nPlease try refreshing the page.")]) :=
  ((c8_transport_retry_once _ "Connection closed by server" rfl).1
    (by decide)).2.2 "Connection closed again" rfl

/-! ## C5: streaming pipeline filtering -/

/-- C5: on the event sequence [tool-call, "[Called x]", "Hello ", "World",
tool-result] the accumulated user-visible output is exactly "Hello World";
tool-invocation and tool-result events are never forwarded regardless of
content; a text fragment whose stripped lower-cased form starts with one of
the internal-marker patterns is suppressed; and any other non-empty accepted
fragment is appended to the accumulator in order. -/
theorem c5_streaming_pipeline :
    visibleOutput [.toolCall "tool_use pdf_document_search",
                   .aiChunkStr "[Called x]",
                   .aiChunkStr "Hello ",
                   .aiChunkStr "World",
                   .toolMessage "3 rows returned"] = "Hello World" ∧
    (∀ acc c, stepEvent acc (.toolCall c) = acc) ∧
    (∀ acc c, stepEvent acc (.toolMessage c) = acc) ∧
    (∀ acc c, stepEvent acc (.toolCallChunk c) = acc) ∧
    (∀ acc s p, p ∈ exclude_patterns →
      strStartsWith (lowerStr (pyStrip s)) p = true →
      stepEvent acc (.aiChunkStr s) = acc) ∧
    (∀ acc s, s ≠ "" → should_include_content s = true →
      stepEvent acc (.aiChunkStr s) = acc ++ s) := by
  refine ⟨by decide, fun _ _ => rfl, fun _ _ => rfl, fun _ _ => rfl, ?_, ?_⟩
  · intro acc s p hp hpre
    by_cases hs : s = ""
    · subst hs
      simp [stepEvent]
    · have hany : exclude_patterns.any (fun q =>
          strStartsWith (lowerStr (pyStrip s)) q ||
            strContains (lowerStr (pyStrip s)) ("[" ++ q)) = true :=
        List.any_eq_true.mpr ⟨p, hp, by rw [hpre]; rfl⟩
      have hinc : should_include_content s = false := by
        unfold should_include_content
        rw [if_neg hs]
        simp only [hany]
        rfl
      simp [stepEvent, hs, hinc]
  · intro acc s hs hinc
    simp [stepEvent, hs, hinc]

/-- Witness for C5: a marker-prefixed fragment is suppressed and an ordinary
fragment is appended, at concrete inputs. -/
theorem c5_streaming_witness :
    stepEvent "acc" (.aiChunkStr "  [Tool: query] ") = "acc" ∧
    stepEvent "Hello " (.aiChunkStr "World") = "Hello " ++ "World" :=
  ⟨c5_streaming_pipeline.2.2.2.2.1 "acc" "  [Tool: query] " "[tool:"
      (by decide) (by decide),
   c5_streaming_pipeline.2.2.2.2.2 "Hello " "World" (by decide) (by decide)⟩

/-! ## Helper lemmas on the lifecycle embedding -/

/-- The `finally` of the construction scope: whatever the construction body
does, the state `runConstruct` leaves behind has the flag cleared. -/
theorem runConstruct_flag_clear (env : Env) (s : SessionState) :
    (runConstruct env s).state.initializing = false := rfl

/-! ## C1: the initialization flag is exception-safe -/

/-- C1: every `get_or_create_agent` run that enters the construction scope —
the agent is absent, and either the flag was clear or the poll loop fell
through — leaves the per-session initialization flag false when it returns
or raises, on every exit path: the construction body's result (success or
any exception, in any environment) passes through the flag-clearing
`finally`. -/
theorem c1_flag_cleared_on_every_exit (env : Env) (s : SessionState)
    (hA : s.agent = none)
    (hEnter : s.initializing = false ∨ pollLoop env.pollObs = .fallThrough) :
    (get_or_create_agent env s).state.initializing = false := by
  rcases hEnter with h | h
  · simp [get_or_create_agent, hA, h, runConstruct_flag_clear]
  · by_cases hi : s.initializing = true
    · simp [get_or_create_agent, hA, hi, h, runConstruct_flag_clear]
    · have hif : s.initializing = false := by
        cases hb : s.initializing
        · rfl
        · exact absurd hb hi
      simp [get_or_create_agent, hA, hif, runConstruct_flag_clear]

/-- Witness for C1: a fresh session with a failing construction still ends
with the flag clear. -/
theorem c1_flag_witness :
    sFresh.agent = none ∧ sFresh.initializing = false ∧
    (get_or_create_agent envToolsFail sFresh).state.initializing = false :=
  ⟨rfl, rfl, c1_flag_cleared_on_every_exit envToolsFail sFresh rfl (Or.inl rfl)⟩

/-! ## C4: race-check disambiguation -/

/-- C4: when the post-cleanup race re-check finds a container already running
under the chosen name, the controller produces the name extended with the
millisecond disambiguator, which is distinct from the colliding name; and
the naming step never raises — whatever the two docker queries and the
removals return, a run whose non-naming steps all succeed returns the built
agent. -/
theorem c4_race_name_distinct :
    (∀ env n out, env.psRace = .ok out → strContains out n = true →
      (raceCheck env n).1 = n ++ "-" ++ Nat.repr env.nowMillis ∧
      (raceCheck env n).1 ≠ n) ∧
    (∀ env s ntools a, s.agent = none → s.initializing = false →
      env.modelBuild = .ok () → env.stdioOpen = .ok () →
      env.sessionEnter = .ok () → env.sessionInit = .ok () →
      env.loadTools = .ok ntools → env.agentBuild = .ok a →
      (get_or_create_agent env s).res = .ok a) := by
  constructor
  · intro env n out h1 h2
    have hval : (raceCheck env n).1 = n ++ "-" ++ Nat.repr env.nowMillis := by
      simp [raceCheck, h1, h2]
    refine ⟨hval, ?_⟩
    rw [hval]
    intro heq
    have hlen := congrArg String.length heq
    rw [String.length_append, String.length_append] at hlen
    have hdash : ("-" : String).length = 1 := rfl
    rw [hdash] at hlen
    omega
  · intro env s ntools a hA hI hm ho he hni hlt hab
    simp [get_or_create_agent, hA, hI, runConstruct, construct, liftErr,
      hm, ho, he, hni, hlt, hab]

/-- Witness for C4: the concrete collision on the base name yields the
suffixed, distinct name, and a run with a collision still succeeds. -/
theorem c4_race_witness :
    (raceCheck envRaceHit "firebolt-mcp-abc123").1 =
      "firebolt-mcp-abc123" ++ "-" ++ Nat.repr envRaceHit.nowMillis ∧
    (raceCheck envRaceHit "firebolt-mcp-abc123").1 ≠ "firebolt-mcp-abc123" ∧
    (get_or_create_agent envRaceHit sFresh).res = .ok 42 :=
  ⟨(c4_race_name_distinct.1 envRaceHit "firebolt-mcp-abc123"
      "firebolt-mcp-abc123" rfl (by decide)).1,
   (c4_race_name_distinct.1 envRaceHit "firebolt-mcp-abc123"
      "firebolt-mcp-abc123" rfl (by decide)).2,
   c4_race_name_distinct.2 envRaceHit sFresh 5 42 rfl rfl rfl rfl rfl rfl rfl rfl⟩

/-! ## C2: the "pure reuse" path actually removes the running handle -/

/-- C2 (divergence witness): the session recorded the handle
"firebolt-mcp-abcdef123456", the liveness query reports it running, the
reuse branch keeps its name — and yet the very next step, the unconditional
`docker rm -f container_name` cleanup (source lines 250-258), force-removes
that running handle before transport bring-up, so a fresh container is
created in its place.  The full operation trace shows the removal between
the two liveness queries and before `stdioOpen`. -/
theorem c2_running_handle_removed_not_reused :
    envReuse.psExisting = .ok "firebolt-mcp-abcdef123456" ∧
    sReuse.mcp_container_name = some "firebolt-mcp-abcdef123456" ∧
    strContains "firebolt-mcp-abcdef123456" "firebolt-mcp-abcdef123456" = true ∧
    (get_or_create_agent envReuse sReuse).trace =
      [Op.setFlag true,
       Op.dockerPs "firebolt-mcp-abcdef123456",
       Op.dockerRm "firebolt-mcp-abcdef123456",
       Op.dockerPs "firebolt-mcp-abcdef123456",
       Op.setContainerName "firebolt-mcp-abcdef123456",
       Op.stdioOpen, Op.sessionEnter, Op.sessionInitAttempt,
       Op.setAgent, Op.setFlag false] :=
  ⟨rfl, rfl, by decide, by decide⟩

/-! ## C3: undo of partially-acquired resources -/

/-- C3 counterexample: tool loading throws after the container name is
recorded, the transport is open and the control session is entered and
initialized — and no undo is attempted before the exception propagates: the
trace ends right at the flag clear, with no `sessionExit`, no `stdioExit`,
and no removal of the recorded container after acquisition (the only
`dockerRm` is the pre-acquisition name cleanup). -/
theorem c3_no_undo_counterexample :
    (get_or_create_agent envToolsFail sFresh).res =
      .error (.exn "tool loading failed") ∧
    (get_or_create_agent envToolsFail sFresh).trace =
      [Op.setFlag true,
       Op.dockerRm "firebolt-mcp-abc123",
       Op.dockerPs "firebolt-mcp-abc123",
       Op.setContainerName "firebolt-mcp-abc123",
       Op.stdioOpen, Op.sessionEnter, Op.sessionInitAttempt,
       Op.setFlag false] ∧
    Op.sessionExit ∉ (get_or_create_agent envToolsFail sFresh).trace ∧
    Op.stdioExit ∉ (get_or_create_agent envToolsFail sFresh).trace :=
  ⟨rfl, by decide, by decide, by decide⟩

/-- C3 (amended): only a failure of the control-session handshake
(`session.initialize()`, source lines 331-356) triggers the undo: the control
session is exited, the transport is exited, and the recorded container is
force-removed — in that order, right before the flag clear — and the original
exception propagates unchanged (undo-step outcomes are consulted and
swallowed, never escalated).  Exceptions at the later steps (tool loading,
agent build) or at transport/control-session entry propagate with only the
flag cleared, as the counterexample shows. -/
theorem c3_amended_handshake_undo (env : Env) (s : SessionState) (e : String)
    (hA : s.agent = none) (hI : s.initializing = false)
    (hm : env.modelBuild = .ok ()) (ho : env.stdioOpen = .ok ())
    (he : env.sessionEnter = .ok ()) (hf : env.sessionInit = .error e) :
    ∃ pre n,
      (get_or_create_agent env s).res = .error (.exn e) ∧
      (get_or_create_agent env s).state.mcp_container_name = some n ∧
      (get_or_create_agent env s).trace =
        pre ++ [Op.sessionInitAttempt, Op.sessionExit, Op.stdioExit,
                Op.dockerRm n, Op.setFlag false] ∧
      Op.setContainerName n ∈ pre ∧ Op.stdioOpen ∈ pre ∧ Op.sessionEnter ∈ pre := by
  have hrun : get_or_create_agent env s = runConstruct env s := by
    simp [get_or_create_agent, hA, hI]
  rcases hr1 : resolveExisting env s.mcp_container_name
      ("firebolt-mcp-" ++ env.sessionIdShort) with ⟨n1, o1⟩
  rcases hr2 : raceCheck env n1 with ⟨n2, o2⟩
  refine ⟨Op.setFlag true ::
      (((o1 ++ [Op.dockerRm n1]) ++ o2) ++
        [Op.setContainerName n2, Op.stdioOpen, Op.sessionEnter]), n2,
    ?_, ?_, ?_, ?_, ?_, ?_⟩
  · rw [hrun]
    simp [runConstruct, construct, liftErr, hm, ho, he, hf, hr1, hr2]
  · rw [hrun]
    simp [runConstruct, construct, hm, ho, he, hf, hr1, hr2]
  · rw [hrun]
    simp [runConstruct, construct, hm, ho, he, hf, hr1, hr2, List.append_assoc]
  · simp
  · simp
  · simp

/-- Witness for the amended C3 at a concrete handshake failure. -/
theorem c3_amended_witness :
    ∃ pre n,
      (get_or_create_agent envHsFail sFresh).res =
        .error (.exn "handshake failed") ∧
      (get_or_create_agent envHsFail sFresh).state.mcp_container_name = some n ∧
      (get_or_create_agent envHsFail sFresh).trace =
        pre ++ [Op.sessionInitAttempt, Op.sessionExit, Op.stdioExit,
                Op.dockerRm n, Op.setFlag false] ∧
      Op.setContainerName n ∈ pre ∧ Op.stdioOpen ∈ pre ∧ Op.sessionEnter ∈ pre :=
  c3_amended_handshake_undo envHsFail sFresh "handshake failed"
    rfl rfl rfl rfl rfl rfl

/-! ## Poll-loop lemmas -/

theorem pollAux_zero (obs : Nat → Option Agent × Bool) (waited : Nat) :
    pollAux obs 0 waited = if 30 ≤ waited then .timeout else .fallThrough := rfl

theorem pollAux_succ (obs : Nat → Option Agent × Bool) (fuel waited : Nat) :
    pollAux obs (fuel + 1) waited =
      match (obs (waited + 1)).1 with
      | some a => .found a
      | none =>
        if (obs (waited + 1)).2 then pollAux obs fuel (waited + 1)
        else if 30 ≤ waited + 1 then .timeout else .fallThrough := rfl

/-- Advancing the poll loop past a quiet stretch (agent absent, flag still
set) just shifts fuel into waited time. -/
theorem pollAux_advance (obs : Nat → Option Agent × Bool) :
    ∀ j fuel waited, j ≤ fuel →
      (∀ i, waited < i → i ≤ waited + j → obs i = (none, true)) →
      pollAux obs fuel waited = pollAux obs (fuel - j) (waited + j) := by
  intro j
  induction j with
  | zero => intro fuel waited _ _; simp
  | succ k ih =>
    intro fuel waited hle hq
    cases fuel with
    | zero => omega
    | succ f =>
      have h1 : obs (waited + 1) = (none, true) :=
        hq (waited + 1) (by omega) (by omega)
      have hstep : pollAux obs (f + 1) waited = pollAux obs f (waited + 1) := by
        rw [pollAux_succ, h1]
        rfl
      rw [hstep]
      have e1 : f + 1 - (k + 1) = f - k := by omega
      have e2 : waited + (k + 1) = waited + 1 + k := by omega
      rw [e1, e2]
      exact ih f (waited + 1) (by omega) (fun i hi1 hi2 => hq i (by omega) (by omega))

/-- If the waiting caller sees the agent at the w-th check (all earlier
checks quiet), the poll loop returns that agent. -/
theorem pollLoop_found (obs : Nat → Option Agent × Bool) (w : Nat) (a : Agent)
    (b : Bool) (h1 : 1 ≤ w) (h2 : w ≤ 30)
    (hq : ∀ i, 1 ≤ i → i < w → obs i = (none, true))
    (hw : obs w = (some a, b)) :
    pollLoop obs = .found a := by
  have hadv := pollAux_advance obs (w - 1) 30 0 (by omega)
    (fun i hi1 hi2 => hq i (by omega) (by omega))
  unfold pollLoop
  rw [hadv]
  have e1 : 30 - (w - 1) = (30 - w) + 1 := by omega
  rw [e1, pollAux_succ]
  have e2 : 0 + (w - 1) + 1 = w := by omega
  rw [e2, hw]

/-- If the flag clears without an agent at the w-th check with w strictly
below the bound (earlier checks quiet), the poll loop falls through. -/
theorem pollLoop_fallthrough_early (obs : Nat → Option Agent × Bool) (w : Nat)
    (h1 : 1 ≤ w) (h2 : w ≤ 29)
    (hq : ∀ i, 1 ≤ i → i < w → obs i = (none, true))
    (hw : obs w = (none, false)) :
    pollLoop obs = .fallThrough := by
  have hadv := pollAux_advance obs (w - 1) 30 0 (by omega)
    (fun i hi1 hi2 => hq i (by omega) (by omega))
  unfold pollLoop
  rw [hadv]
  have e1 : 30 - (w - 1) = (30 - w) + 1 := by omega
  rw [e1, pollAux_succ]
  have e2 : 0 + (w - 1) + 1 = w := by omega
  rw [e2, hw]
  simp
  omega

/-- If no check up to the 29th produces an agent or a cleared flag and the
30th still shows no agent, the poll loop times out — even when the flag is
observed cleared exactly at the 30th check. -/
theorem pollLoop_timeout_at_max (obs : Nat → Option Agent × Bool)
    (hq : ∀ i, 1 ≤ i → i ≤ 29 → obs i = (none, true))
    (h30 : (obs 30).1 = none) :
    pollLoop obs = .timeout := by
  have hadv := pollAux_advance obs 29 30 0 (by omega)
    (fun i hi1 hi2 => hq i (by omega) (by omega))
  unfold pollLoop
  rw [hadv]
  show pollAux obs (0 + 1) (0 + 29) = .timeout
  rw [Nat.zero_add, Nat.zero_add, pollAux_succ]
  rw [show (29 : Nat) + 1 = 30 from rfl, h30]
  cases hb : (obs 30).2 <;> simp [hb, pollAux_zero]

/-! ## C9: the bounded poll loop -/

/-- C9 counterexample: the flag is observed cleared without an agent — but
only at the 30th (final) check — and the poll loop raises the initialization
timeout instead of falling through to retry construction, refuting the
claim's unconditional "flag cleared without an Agent ⇒ falls through". -/
theorem c9_late_clear_counterexample :
    obsLateClear 30 = (none, false) ∧
    obsLateClear 29 = (none, true) ∧
    pollLoop obsLateClear = .timeout :=
  ⟨rfl, rfl, by decide⟩

/-- C9 (amended): the waiting caller re-checks once per fixed interval, up to
30 checks; an agent appearing at any check is returned; the flag observed
cleared without an agent strictly before the final check falls through to
retry construction; if all 30 checks pass without an agent — including when
the flag is first observed cleared only at the 30th check — the call raises
the initialization timeout, leaving the session state untouched and issuing
no operation (so the in-flight initializer is not cancelled). -/
theorem c9_amended_bounded_poll :
    (∀ obs w a b, 1 ≤ w → w ≤ 30 →
      (∀ i, 1 ≤ i → i < w → obs i = (none, true)) → obs w = (some a, b) →
      pollLoop obs = .found a) ∧
    (∀ obs w, 1 ≤ w → w ≤ 29 →
      (∀ i, 1 ≤ i → i < w → obs i = (none, true)) → obs w = (none, false) →
      pollLoop obs = .fallThrough) ∧
    (∀ obs, (∀ i, 1 ≤ i → i ≤ 29 → obs i = (none, true)) → (obs 30).1 = none →
      pollLoop obs = .timeout) ∧
    (∀ env s a, s.agent = none → s.initializing = true →
      pollLoop env.pollObs = .found a →
      get_or_create_agent env s = ⟨.ok a, s, []⟩) ∧
    (∀ env s, s.agent = none → s.initializing = true →
      pollLoop env.pollObs = .fallThrough →
      get_or_create_agent env s = runConstruct env s) ∧
    (∀ env s, s.agent = none → s.initializing = true →
      pollLoop env.pollObs = .timeout →
      get_or_create_agent env s = ⟨.error .initTimeout, s, []⟩) := by
  refine ⟨pollLoop_found, pollLoop_fallthrough_early, pollLoop_timeout_at_max,
    ?_, ?_, ?_⟩
  · intro env s a hA hI hp
    simp [get_or_create_agent, hA, hI, hp]
  · intro env s hA hI hp
    simp [get_or_create_agent, hA, hI, hp]
  · intro env s hA hI hp
    simp [get_or_create_agent, hA, hI, hp]

/-- Witness for the amended C9 on concrete observation sequences. -/
theorem c9_amended_witness :
    pollLoop obsFound = .found 7 ∧
    pollLoop obsFall = .fallThrough ∧
    pollLoop obsStuck = .timeout ∧
    get_or_create_agent envStuck sWaiting = ⟨.error .initTimeout, sWaiting, []⟩ := by
  refine ⟨?_, ?_, ?_, ?_⟩
  · exact c9_amended_bounded_poll.1 obsFound 3 7 true (by omega) (by omega)
      (fun i hi1 hi2 => by unfold obsFound; rw [if_neg (by omega)]) (by decide)
  · exact c9_amended_bounded_poll.2.1 obsFall 5 (by omega) (by omega)
      (fun i hi1 hi2 => by unfold obsFall; rw [if_neg (by omega)]) (by decide)
  · exact c9_amended_bounded_poll.2.2.1 obsStuck (fun i _ _ => rfl) rfl
  · exact c9_amended_bounded_poll.2.2.2.2.2 envStuck sWaiting rfl rfl
      (c9_amended_bounded_poll.2.2.1 obsStuck (fun i _ _ => rfl) rfl)

/-! ## Janitor-sweep lemmas -/

theorem renderLine_data (h : ContainerLine) :
    (renderLine h).data =
      h.name.data ++ ' ' :: (h.status.data ++ ' ' :: h.created.data) := by
  simp [renderLine, String.data_append]

theorem splitMax2_renderLine (h : ContainerLine)
    (hn : ' ' ∉ h.name.data) (hs : ' ' ∉ h.status.data) :
    splitMax2 ' ' (renderLine h) = [h.name, h.status, h.created] := by
  simp only [splitMax2, renderLine_data,
    splitFirst_append (h.status.data ++ ' ' :: h.created.data) hn,
    splitFirst_append h.created.data hs]

theorem cleanupStep_renderLine (env : CleanupEnv) (acc : List Op)
    (h : ContainerLine) (hg : goodLine h) :
    cleanupStep env acc (renderLine h) =
      if deadStatus h then acc ++ [Op.dockerRm h.name] else acc := by
  obtain ⟨hn, hs, hstrip⟩ := hg
  have hround := splitMax2_renderLine h hn hs
  have hne : renderLine h ≠ "" := by
    intro h0
    rw [h0] at hround
    simp [splitMax2, splitFirst] at hround
  unfold cleanupStep
  rw [hstrip, if_neg hne, hround]
  simp [deadStatus]

theorem cleanup_fold (env : CleanupEnv) :
    ∀ (hs : List ContainerLine) (acc : List Op),
      (∀ h ∈ hs, goodLine h) →
      (hs.map renderLine).foldl (cleanupStep env) acc =
        acc ++ (hs.filter deadStatus).map (fun h => Op.dockerRm h.name) := by
  intro hs
  induction hs with
  | nil => intro acc _; simp
  | cons h t ih =>
    intro acc hg
    have hgh : goodLine h := hg h (List.mem_cons_self h t)
    have hgt : ∀ x ∈ t, goodLine x := fun x hx => hg x (List.mem_cons_of_mem h hx)
    simp only [List.map_cons, List.foldl_cons, cleanupStep_renderLine env acc h hgh]
    by_cases hd : deadStatus h = true
    · rw [if_pos hd, ih (acc ++ [Op.dockerRm h.name]) hgt]
      simp [List.filter_cons, hd, List.append_assoc]
    · have hd' : deadStatus h = false := by
        cases hdd : deadStatus h
        · rfl
        · exact absurd hdd hd
      rw [if_neg hd, ih acc hgt]
      simp [List.filter_cons, hd']

/-! ## C6: the janitor sweep -/

/-- C6: over any structured list of container handles printed by the scan,
the sweep force-removes exactly the handles whose status word mentions
Exited or Dead, in order, and leaves every other (running) handle untouched;
the outcome of each individual removal is consulted and swallowed, so the
removal list does not depend on which removals fail; and a failure of the
scan itself is swallowed, producing an empty sweep instead of an exception. -/
theorem c6_janitor_best_effort_sweep :
    (∀ env (hs : List ContainerLine) out, env.scan = .ok out →
      pyStrip out ≠ "" →
      pySplitChar '\n' (pyStrip out) = hs.map renderLine →
      (∀ h ∈ hs, goodLine h) →
      cleanup_old_containers env =
        (hs.filter deadStatus).map (fun h => Op.dockerRm h.name)) ∧
    (∀ env, env.scan = .error () → cleanup_old_containers env = []) ∧
    (∀ sc f g, cleanup_old_containers ⟨sc, f⟩ = cleanup_old_containers ⟨sc, g⟩) := by
  refine ⟨?_, ?_, ?_⟩
  · intro env hs out hscan hne hsplit hg
    unfold cleanup_old_containers
    rw [hscan]
    simp only [if_neg hne]
    rw [hsplit, cleanup_fold env hs [] hg]
    simp
  · intro env h
    unfold cleanup_old_containers
    rw [h]
  · intro sc f g
    rfl

/-- Witness for C6 on the mixed fixture: one running handle kept, the exited
and the dead handles removed in order, with every removal failing. -/
theorem c6_janitor_witness :
    cleanup_old_containers envSweep =
      (hsSweep.filter deadStatus).map (fun h => Op.dockerRm h.name) ∧
    (hsSweep.filter deadStatus).map (fun h => Op.dockerRm h.name) =
      [Op.dockerRm "firebolt-mcp-bbb", Op.dockerRm "firebolt-mcp-ccc"] := by
  constructor
  · exact c6_janitor_best_effort_sweep.1 envSweep hsSweep sweepOut rfl
      (by decide) (by decide) (by decide)
  · decide

end DataChat
